import Mathlib

/-!
Shallow embedding of the tsignal signal/slot dispatch runtime
(`src/tsignal/core.py` and `src/tsignal/contrib/patterns/worker/decorators.py`)
and proofs about the behaviour its specification describes.

Modelling conventions:

- Python thread objects, event-loop objects, callables and coroutine objects
  are identified by `Nat` ids; Python `==` on such objects (which is identity
  for them) becomes `Nat` equality.
- Attribute presence (`hasattr`) is modelled explicitly where the source
  checks it: `AffObject` carries a presence flag per tsignal attribute.
- Exceptions are modelled by `Except PyExc`, where `PyExc` distinguishes the
  Python exception classes the source raises.
- `emit` iterates the *live* `self.connections` list object (the source has
  no snapshot).  CPython semantics of mutating a list during a `for` loop are
  modelled faithfully: `disconnect(receiver, slot)` with at least one
  argument *rebinds* `self.connections` to a freshly built list, so the
  iterator keeps walking the old object; `disconnect()` with no arguments
  calls `self.connections.clear()`, which empties the object being iterated
  and therefore terminates the iteration.
-/

namespace TSignal

/-- Python exception classes raised by the modelled source code. -/
inductive PyExc
  | runtimeError (msg : String)
  | typeError (msg : String)
  | attributeError (msg : String)
deriving DecidableEq, Repr

/-- `TConnectionType` enum from `core.py`. -/
inductive TConnectionType
  | DIRECT_CONNECTION
  | QUEUED_CONNECTION
  | AUTO_CONNECTION
deriving DecidableEq, Repr

/-- Affinity token values (`_tsignal_affinity`).  `t_with_signals.__init__`
stores the creating *thread object* there; a worker's `__init__` stores a
fresh `object()`.  The two constructors keep these families distinct, as the
corresponding Python objects are. -/
inductive AffinityToken
  | threadTok (t : Nat)
  | objTok (n : Nat)
deriving DecidableEq, Repr

/-- A Python object as seen by the dispatch code: which tsignal attributes it
carries (`hasattr`) and their values.  A `none` value models Python `None`
stored in a present attribute (workers set `_tsignal_thread = None` before
`start`). `loopRunning` models `loop.is_running()` of the loop object held in
`loop`, `threadAlive` models `thread.is_alive()`. -/
structure AffObject where
  id : Nat
  hasThreadAttr : Bool
  thread : Option Nat
  hasLoopAttr : Bool
  loop : Option Nat
  hasAffinityAttr : Bool
  affinity : Option AffinityToken
  loopRunning : Bool
  threadAlive : Bool
deriving DecidableEq, Repr

/-- `hasattr(x, "_tsignal_thread")` where `x` may be Python `None`
(`hasattr(None, ...)` is false). -/
def hasThreadAttr : Option AffObject → Bool
  | none => false
  | some o => o.hasThreadAttr

/-- `hasattr(x, "_tsignal_affinity")` where `x` may be Python `None`. -/
def hasAffinityAttr : Option AffObject → Bool
  | none => false
  | some o => o.hasAffinityAttr

/-- The `_tsignal_affinity` value of an object (meaningful only when the
attribute is present). -/
def affinityValue : Option AffObject → Option AffinityToken
  | none => none
  | some o => o.affinity

/-- `_determine_connection_type` from `core.py` (lines 73-98), translated
branch for branch.  `receiver` is the connection's receiver (possibly Python
`None`), `owner` is `self.owner` of the emitting signal (possibly `None`). -/
def _determine_connection_type (conn_type : TConnectionType)
    (receiver owner : Option AffObject) (is_coro_slot : Bool) : TConnectionType :=
  if conn_type = TConnectionType.AUTO_CONNECTION then
    if is_coro_slot then
      TConnectionType.QUEUED_CONNECTION
    else
      if receiver.isSome && hasThreadAttr receiver && hasThreadAttr owner
          && hasAffinityAttr receiver && hasAffinityAttr owner then
        if affinityValue receiver = affinityValue owner then
          TConnectionType.DIRECT_CONNECTION
        else
          TConnectionType.QUEUED_CONNECTION
      else
        TConnectionType.DIRECT_CONNECTION
  else
    conn_type

/-- The effective-kind algorithm exactly as the spec states it (spec §4.C,
"compute the effective kind"), for comparison with the source's
`_determine_connection_type`.  "Carries affinity fields" is read as: the
object carries the fields of the spec's affinity record that the decision
consults, i.e. the owner-thread field and the affinity-token field. -/
def specEffectiveKind (requested : TConnectionType)
    (receiver owner : Option AffObject) (is_suspending : Bool) : TConnectionType :=
  if requested ≠ TConnectionType.AUTO_CONNECTION then
    requested
  else if is_suspending then
    TConnectionType.QUEUED_CONNECTION
  else if receiver.isSome
      && (hasThreadAttr receiver && hasAffinityAttr receiver)
      && (hasThreadAttr owner && hasAffinityAttr owner) then
    if affinityValue receiver = affinityValue owner then
      TConnectionType.DIRECT_CONNECTION
    else
      TConnectionType.QUEUED_CONNECTION
  else
    TConnectionType.DIRECT_CONNECTION

/-- C1: the effective dispatch kind computed at emission time follows the
spec's Auto-resolution algorithm: a non-Auto requested kind is used
unchanged; else a cooperative-suspending slot yields Queued; else if the
receiver is non-null and both receiver and signal owner carry affinity
fields, equal affinity tokens yield Direct and unequal ones Queued; every
remaining case yields Direct. -/
theorem determine_connection_type_follows_spec
    (conn_type : TConnectionType) (receiver owner : Option AffObject)
    (is_coro_slot : Bool) :
    _determine_connection_type conn_type receiver owner is_coro_slot =
      specEffectiveKind conn_type receiver owner is_coro_slot := by
  cases conn_type <;>
    simp only [_determine_connection_type, specEffectiveKind] <;>
    cases is_coro_slot <;> simp
  exact if_congr (by tauto) rfl rfl

/-- What a slot callable does when it is invoked during an emission.  Slots
are opaque Python callables; for the properties at stake only three
behaviours matter: return normally, raise an exception, or call
`disconnect(receiver, slot)` on the emitting signal (and then return). -/
inductive SlotEffect
  | ret
  | raiseExc
  | disconnectCall (receiver : Option Nat) (slot : Option Nat)
deriving DecidableEq, Repr

/-- A slot callable: its identity, its `__wrapped__` attribute (set by
`functools.wraps` inside `_wrap_standalone_function`, pointing at the
original function; `none` when absent), and its behaviour when invoked. -/
structure SlotObj where
  id : Nat
  wrapped : Option Nat
  effect : SlotEffect
deriving DecidableEq, Repr

/-- A connection tuple `(receiver, slot, conn_type, is_coro_slot)` as stored
in `TSignal.connections`. -/
structure Connection where
  receiver : Option AffObject
  slot : SlotObj
  connType : TConnectionType
  isCoroSlot : Bool
deriving DecidableEq, Repr

/-- The removal test of `TSignal.disconnect` (core.py lines 194-201) for one
stored connection, given the `receiver` and `slot` arguments (as object ids;
`none` is Python `None`).  The first branch of the source loop applies when
the stored receiver is `None` and a slot argument was given: it matches on
the slot's `__wrapped__` attribute or on the slot itself, ignoring the
receiver argument.  Otherwise the conjunctive `elif` test applies. -/
def connMatchesRemoval (receiver slot : Option Nat) (c : Connection) : Bool :=
  if c.receiver = none ∧ slot ≠ none then
    decide (c.slot.wrapped = slot) || decide (some c.slot.id = slot)
  else
    (decide (receiver = none) || decide (c.receiver.map AffObject.id = receiver))
      && (decide (slot = none) || decide (some c.slot.id = slot))

/-- `TSignal.disconnect` (core.py lines 183-206): with both arguments `None`
it clears the list in place and returns the old length; otherwise it builds
a new list of the non-matching connections, rebinds `self.connections` to
it, and returns the difference of lengths.  Result: (new connection list,
returned count). -/
def disconnect (conns : List Connection) (receiver slot : Option Nat) :
    List Connection × Nat :=
  if receiver = none ∧ slot = none then
    ([], conns.length)
  else
    let kept := conns.filter (fun c => ! connMatchesRemoval receiver slot c)
    (kept, conns.length - kept.length)

/-- Observable outcome of processing one connection inside `TSignal.emit`
(core.py lines 217-310).  Exceptions raised while dispatching a connection
are caught by the per-connection `except Exception` handler (lines 307-310),
which logs them; `directRaised` and `errNoRunningLoopLogged` record such
caught-and-logged exceptions. -/
inductive DispatchResult
  | directOk
  | directRaised
  | posted (loopId : Nat)
  | skippedNoReceiverLoop
  | skippedLoopNotRunning
  | errNoRunningLoopLogged
deriving DecidableEq, Repr

/-- Environment of one `emit` call: `self.owner` of the signal and the
result of `asyncio.get_running_loop()` on the emitting thread (`none` models
the `RuntimeError` case of no running loop). -/
structure EmitEnv where
  owner : Option AffObject
  runningLoop : Option Nat
deriving DecidableEq, Repr

/-- Modelled from the spec: `t_signal_log_and_raise_error` is defined in
`tsignal/utils.py`, which is not among the provided sources; per its name,
its call sites, and the spec's error taxonomy, it logs the message and then
raises the given exception class with it.  Modelled as always producing the
exception. -/
def t_signal_log_and_raise_error (exc : PyExc) : Except PyExc Unit :=
  Except.error exc

/-- Outcome of dispatching one connection: the observable result, the new
contents of `self.connections`, whether `self.connections` still aliases the
list object the `for` loop iterates, and whether that iterated object was
just cleared in place (which ends the iteration). -/
structure DispatchOutcome where
  result : DispatchResult
  field : List Connection
  aliased : Bool
  clearedIterated : Bool
deriving DecidableEq, Repr

/-- One iteration of the `emit` loop body for connection `c`, given the
current contents of `self.connections` (`field`) and whether that attribute
still aliases the iterated list object (`aliased`).

Direct dispatch calls the slot in the emitting thread; a raised exception is
caught and logged (lines 307-310); a slot that calls `disconnect` mutates
the signal: a no-argument call runs `self.connections.clear()` (in place —
clearing the iterated object when still aliased), any other call rebinds
`self.connections` to a new list, breaking the alias.

Queued dispatch with a receiver reads `getattr(receiver, LOOP, None)`: a
missing or `None` loop logs an error and skips; a loop that is not running
logs a warning and skips; otherwise the closure is posted to that loop.
With no receiver, `asyncio.get_running_loop()` is consulted; if it raises,
`t_signal_log_and_raise_error` raises a `RuntimeError` that the
per-connection handler catches and logs, and the loop continues. -/
def dispatchConn (env : EmitEnv) (field : List Connection) (aliased : Bool)
    (c : Connection) : DispatchOutcome :=
  let k := _determine_connection_type c.connType c.receiver env.owner c.isCoroSlot
  if k = TConnectionType.DIRECT_CONNECTION then
    match c.slot.effect with
    | SlotEffect.ret => ⟨DispatchResult.directOk, field, aliased, false⟩
    | SlotEffect.raiseExc => ⟨DispatchResult.directRaised, field, aliased, false⟩
    | SlotEffect.disconnectCall r s =>
      if r = none ∧ s = none then
        ⟨DispatchResult.directOk, [], aliased, aliased⟩
      else
        ⟨DispatchResult.directOk, (disconnect field r s).1, false, false⟩
  else
    match c.receiver with
    | some rcv =>
      match (if rcv.hasLoopAttr then rcv.loop else none) with
      | none => ⟨DispatchResult.skippedNoReceiverLoop, field, aliased, false⟩
      | some l =>
        if rcv.loopRunning then
          ⟨DispatchResult.posted l, field, aliased, false⟩
        else
          ⟨DispatchResult.skippedLoopNotRunning, field, aliased, false⟩
    | none =>
      match env.runningLoop with
      | some l => ⟨DispatchResult.posted l, field, aliased, false⟩
      | none =>
        match t_signal_log_and_raise_error
            (PyExc.runtimeError "No running event loop found for queued connection.") with
        | Except.error _ => ⟨DispatchResult.errNoRunningLoopLogged, field, aliased, false⟩
        | Except.ok _ => ⟨DispatchResult.errNoRunningLoopLogged, field, aliased, false⟩

/-- The `for receiver, slot, conn_type, is_coro_slot in self.connections`
loop of `emit`.  `remaining` is the suffix of the iterated list object still
to be visited; the iterated object only ever changes by being cleared in
place, upon which the iteration ends.  Returns the trace of per-connection
outcomes (slot id, result) and the final contents of `self.connections`. -/
def emitLoop (env : EmitEnv) :
    List Connection → List Connection → Bool →
      List (Nat × DispatchResult) × List Connection
  | [], field, _ => ([], field)
  | c :: rest, field, aliased =>
    let o := dispatchConn env field aliased c
    if o.clearedIterated then
      ([(c.slot.id, o.result)], o.field)
    else
      let r := emitLoop env rest o.field o.aliased
      ((c.slot.id, o.result) :: r.1, r.2)

/-- `TSignal.emit`: sets the emission-context flag (restored on exit),
iterates the live `self.connections` list object — which `self.connections`
aliases when the loop starts — and dispatches each connection. -/
def emit (env : EmitEnv) (conns : List Connection) :
    List (Nat × DispatchResult) × List Connection :=
  emitLoop env conns conns true

/-- The observable dispatch result of a connection, which depends only on
the emission environment and the connection itself, never on the current
contents of `self.connections`. -/
def pureDispatchResult (env : EmitEnv) (c : Connection) : DispatchResult :=
  (dispatchConn env [] true c).result

theorem dispatchConn_result (env : EmitEnv) (field : List Connection)
    (aliased : Bool) (c : Connection) :
    (dispatchConn env field aliased c).result = pureDispatchResult env c := by
  unfold pureDispatchResult dispatchConn
  by_cases hk : _determine_connection_type c.connType c.receiver env.owner c.isCoroSlot =
      TConnectionType.DIRECT_CONNECTION
  · simp only [hk, if_pos]
    cases c.slot.effect with
    | ret => rfl
    | raiseExc => rfl
    | disconnectCall r s => by_cases hrs : r = none ∧ s = none <;> simp [hrs]
  · simp only [hk, if_neg, if_false]
    cases c.receiver with
    | none => cases env.runningLoop <;> rfl
    | some rcv =>
      cases hl : (if rcv.hasLoopAttr then rcv.loop else none) with
      | none => simp [hl]
      | some l => by_cases hrun : rcv.loopRunning = true <;> simp [hl, hrun]

theorem dispatchConn_not_cleared (env : EmitEnv) (field : List Connection)
    (aliased : Bool) (c : Connection)
    (h : c.slot.effect ≠ SlotEffect.disconnectCall none none) :
    (dispatchConn env field aliased c).clearedIterated = false := by
  unfold dispatchConn
  by_cases hk : _determine_connection_type c.connType c.receiver env.owner c.isCoroSlot =
      TConnectionType.DIRECT_CONNECTION
  · simp only [hk, if_pos]
    cases heff : c.slot.effect with
    | ret => rfl
    | raiseExc => rfl
    | disconnectCall r s =>
      have hrs : ¬ (r = none ∧ s = none) := by
        intro hc
        exact h (by rw [heff, hc.1, hc.2])
      simp [hrs]
  · simp only [hk, if_neg, if_false]
    cases c.receiver with
    | none => cases env.runningLoop <;> rfl
    | some rcv =>
      cases hl : (if rcv.hasLoopAttr then rcv.loop else none) with
      | none => simp [hl]
      | some l => by_cases hrun : rcv.loopRunning = true <;> simp [hl, hrun]

/-- As long as no slot invoked by the emission performs an argumentless
`disconnect`, the iterated list object is never mutated, and the emission
trace is exactly one entry per connection of the snapshot taken when the
loop started, in order, each entry independent of any `disconnect` calls
performed meanwhile. -/
theorem emitLoop_trace_of_no_clear (env : EmitEnv) (remaining : List Connection)
    (field : List Connection) (aliased : Bool)
    (h : ∀ c ∈ remaining, c.slot.effect ≠ SlotEffect.disconnectCall none none) :
    (emitLoop env remaining field aliased).1 =
      remaining.map (fun c => (c.slot.id, pureDispatchResult env c)) := by
  induction remaining generalizing field aliased with
  | nil => rfl
  | cons c rest ih =>
    have hc : c.slot.effect ≠ SlotEffect.disconnectCall none none := h c (by simp)
    have hrest : ∀ x ∈ rest, x.slot.effect ≠ SlotEffect.disconnectCall none none :=
      fun x hx => h x (List.mem_cons_of_mem c hx)
    simp only [emitLoop, List.map_cons]
    rw [dispatchConn_not_cleared env field aliased c hc]
    simp only [Bool.false_eq_true, if_false]
    rw [dispatchConn_result env field aliased c]
    rw [ih _ _ hrest]

/-- Fixture: emission environment with no signal owner and no running loop
on the emitting thread. -/
def envPlain : EmitEnv := ⟨none, none⟩

/-- Fixture: a slot whose body calls `disconnect()` with no arguments on the
emitting signal. -/
def connClearAll : Connection :=
  ⟨none, ⟨0, none, SlotEffect.disconnectCall none none⟩,
    TConnectionType.DIRECT_CONNECTION, false⟩

/-- Fixture: a plain slot that returns normally, connected directly. -/
def connPlain : Connection :=
  ⟨none, ⟨1, none, SlotEffect.ret⟩, TConnectionType.DIRECT_CONNECTION, false⟩

/-- Fixture: a slot whose body calls `disconnect(slot=...)` (an argument
given, so the source rebinds `self.connections` to a new list). -/
def connFilterDisc : Connection :=
  ⟨none, ⟨2, none, SlotEffect.disconnectCall none (some 1)⟩,
    TConnectionType.DIRECT_CONNECTION, false⟩

/-- Fixture: a wrapped free coroutine function connected with Auto kind: it
has no receiver and resolves to Queued dispatch. -/
def connFreeCoro : Connection :=
  ⟨none, ⟨3, some 30, SlotEffect.ret⟩, TConnectionType.AUTO_CONNECTION, true⟩

/-- Fixture: a directly connected slot that raises when invoked. -/
def connRaise : Connection :=
  ⟨none, ⟨4, none, SlotEffect.raiseExc⟩, TConnectionType.DIRECT_CONNECTION, false⟩

/-- C3 counterexample: with connections `[connClearAll, connPlain]`, the
first slot calls `disconnect()` with no arguments during the emission; this
clears the iterated list object in place and the emission never invokes
`connPlain` (slot id 1), so the set of connections invoked is not the one
from when `emit` started. -/
theorem emit_argumentless_disconnect_truncates_emission :
    (emit envPlain [connClearAll, connPlain]).1 = [(0, DispatchResult.directOk)] ∧
    (emit envPlain [connClearAll, connPlain]).2 = [] := by
  constructor <;> rfl

/-- C3 amended: as long as no slot invoked by the emission calls
`disconnect` with no arguments, the connections invoked by an emission are
exactly those of the connection list as it was when `emit` started, in
order, with each connection's outcome independent of any `disconnect`
performed by earlier slots of the same emission. -/
theorem emit_trace_stable_under_argument_disconnects (env : EmitEnv)
    (conns : List Connection)
    (h : ∀ c ∈ conns, c.slot.effect ≠ SlotEffect.disconnectCall none none) :
    (emit env conns).1 =
      conns.map (fun c => (c.slot.id, pureDispatchResult env c)) :=
  emitLoop_trace_of_no_clear env conns conns true h

/-- C3 amended witness: a slot performing `disconnect(slot=...)` during the
emission does not keep the remaining connection from being invoked. -/
theorem emit_trace_stable_under_argument_disconnects_witness :
    (emit envPlain [connFilterDisc, connPlain]).1 =
      [(2, DispatchResult.directOk), (1, DispatchResult.directOk)] := by
  have h := emit_trace_stable_under_argument_disconnects envPlain
    [connFilterDisc, connPlain] (by decide)
  rw [h]; rfl

/-- C4 counterexample: a connection with no receiver resolving to Queued
dispatch, emitted with no running loop on the emitting thread: the no-loop
`RuntimeError` raised by `t_signal_log_and_raise_error` is caught by the
per-connection `except Exception` handler of `emit`, which logs it, and the
emission continues with the remaining connection and returns normally —
`emit` does not raise to the emitter. -/
theorem emit_no_loop_error_is_caught_and_logged :
    (emit envPlain [connFreeCoro, connPlain]).1 =
      [(3, DispatchResult.errNoRunningLoopLogged), (1, DispatchResult.directOk)] := by
  rfl

/-- C4 amended: when a connection without a receiver resolves to Queued
dispatch and no loop is running on the emitting thread, the no-loop error is
raised inside `emit` but caught by the per-connection exception handler: it
is logged and the emission proceeds with every remaining connection; `emit`
returns normally to the emitter. -/
theorem emit_no_loop_logged_and_emission_continues (env : EmitEnv)
    (conns : List Connection)
    (hloop : env.runningLoop = none)
    (h : ∀ c ∈ conns, c.slot.effect ≠ SlotEffect.disconnectCall none none) :
    (emit env conns).1 =
      conns.map (fun c => (c.slot.id, pureDispatchResult env c)) ∧
    ∀ c ∈ conns, c.receiver = none →
      _determine_connection_type c.connType c.receiver env.owner c.isCoroSlot ≠
        TConnectionType.DIRECT_CONNECTION →
      pureDispatchResult env c = DispatchResult.errNoRunningLoopLogged := by
  refine ⟨emitLoop_trace_of_no_clear env conns conns true h, ?_⟩
  intro c _ hrcv hk
  unfold pureDispatchResult dispatchConn
  rw [if_neg hk, hrcv, hloop]
  rfl

/-- C4 amended witness. -/
theorem emit_no_loop_logged_and_emission_continues_witness :
    (emit envPlain [connFreeCoro, connPlain]).1 =
      [(3, DispatchResult.errNoRunningLoopLogged), (1, DispatchResult.directOk)] ∧
    pureDispatchResult envPlain connFreeCoro = DispatchResult.errNoRunningLoopLogged := by
  have h := emit_no_loop_logged_and_emission_continues envPlain
    [connFreeCoro, connPlain] rfl (by decide)
  exact ⟨by rw [h.1]; rfl,
    h.2 connFreeCoro (by simp) rfl (by decide)⟩

/-- C6: a directly dispatched slot that raises has its exception caught and
logged by the per-connection handler of `emit`; the iteration state is
unchanged and every connection after the raising one is dispatched exactly
as it would otherwise be; the exception is not propagated to the emitter. -/
theorem emit_direct_exception_is_isolated (env : EmitEnv)
    (field : List Connection) (aliased : Bool) (c : Connection)
    (rest : List Connection)
    (hdir : _determine_connection_type c.connType c.receiver env.owner c.isCoroSlot =
      TConnectionType.DIRECT_CONNECTION)
    (hraise : c.slot.effect = SlotEffect.raiseExc) :
    emitLoop env (c :: rest) field aliased =
      ((c.slot.id, DispatchResult.directRaised) :: (emitLoop env rest field aliased).1,
        (emitLoop env rest field aliased).2) := by
  have hdc : dispatchConn env field aliased c =
      ⟨DispatchResult.directRaised, field, aliased, false⟩ := by
    unfold dispatchConn
    rw [if_pos hdir, hraise]
  simp only [emitLoop, hdc]
  simp

/-- C6 witness: the slot at position 0 raises; the remaining connection is
still dispatched and the raising one is recorded as caught-and-logged. -/
theorem emit_direct_exception_is_isolated_witness :
    emitLoop envPlain [connRaise, connPlain] [connRaise, connPlain] true =
      ([(4, DispatchResult.directRaised), (1, DispatchResult.directOk)],
        [connRaise, connPlain]) := by
  have h := emit_direct_exception_is_isolated envPlain
    [connRaise, connPlain] true connRaise [connPlain] (by decide) rfl
  rw [h]; rfl

/-- Fixture: a receiverless connection holding a wrapped free function (the
wrapper records the original function, id 50, in `__wrapped__`). -/
def connWrappedFree : Connection :=
  ⟨none, ⟨5, some 50, SlotEffect.ret⟩, TConnectionType.AUTO_CONNECTION, false⟩

/-- C5 counterexample: `disconnect(receiver, slot)` with both arguments
given removes a connection whose receiver is `None` — which does not match
the given receiver — because the first branch of the removal loop tests only
the slot when the stored receiver is `None`.  The call returns 1, counting
that removal. -/
theorem disconnect_both_args_ignores_receiver_for_receiverless :
    disconnect [connWrappedFree] (some 9) (some 5) = ([], 1) ∧
    connWrappedFree.receiver.map AffObject.id ≠ some 9 := by
  constructor <;> decide

/-- C5 amended: `disconnect` returns exactly the number of connections
removed and the surviving connections keep their relative order; but when
both a receiver and a slot are given, only connections with a non-null
receiver are matched against both arguments — a connection with a null
receiver is removed whenever its slot or its wrapped original function
equals the slot argument, regardless of the receiver argument. -/
theorem disconnect_characterization (conns : List Connection) (ri si : Nat) :
    (∀ r s, (disconnect conns r s).1.length + (disconnect conns r s).2 = conns.length) ∧
    (∀ r s, List.Sublist (disconnect conns r s).1 conns) ∧
    (disconnect conns (some ri) (some si)).2 =
      conns.countP (fun c => connMatchesRemoval (some ri) (some si) c) ∧
    (∀ c : Connection, connMatchesRemoval (some ri) (some si) c =
      (match c.receiver with
       | none => decide (c.slot.wrapped = some si) || decide (c.slot.id = si)
       | some rc => decide (rc.id = ri) && decide (c.slot.id = si))) := by
  refine ⟨?_, ?_, ?_, ?_⟩
  · intro r s
    unfold disconnect
    by_cases hrs : r = none ∧ s = none
    · simp [hrs]
    · rw [if_neg hrs]
      dsimp only
      have hle : (conns.filter (fun c => ! connMatchesRemoval r s c)).length ≤
          conns.length := List.length_filter_le _ _
      omega
  · intro r s
    unfold disconnect
    by_cases hrs : r = none ∧ s = none
    · simp [hrs]
    · rw [if_neg hrs]
      dsimp only
      exact List.filter_sublist conns
  · unfold disconnect
    rw [if_neg (by simp)]
    rw [List.countP_eq_length_filter]
    have h := List.length_eq_length_filter_add
      (l := conns) (fun c => connMatchesRemoval (some ri) (some si) c)
    dsimp only
    omega
  · intro c
    unfold connMatchesRemoval
    cases hr : c.receiver with
    | none => simp
    | some rc => simp [hr]

/-- The owner object of a member slot as the `t_slot` wrapper sees it: its
`_tsignal_thread` and `_tsignal_loop` attributes (`none` models the
attribute being absent, triggering the wrapper's lazy initialization;
`t_with_signals` objects always have both set). -/
structure SlotOwner where
  thread : Option Nat
  loop : Option Nat
deriving DecidableEq, Repr

/-- Observable outcome of directly calling a synchronous member slot wrapped
by `t_slot` (core.py lines 393-428).  The underlying function's behaviour on
this call is `funcRes`: `Except.ok v` if it returns `v`, `Except.error e` if
it raises `e`. -/
inductive SyncSlotCall
  | marshalled (loopId : Nat) (outcome : Except Nat Nat)
  | directCall (outcome : Except Nat Nat)
  | noLoopError
deriving Repr

/-- The synchronous `t_slot` wrapper: lazily initializes the owner's thread
and loop attributes from the current thread and running loop; raises a
no-loop `RuntimeError` when the loop attribute is absent and no loop runs;
then, when the emission-context flag is unset and the current thread differs
from the owner's thread, posts a closure running the underlying function to
the owner's loop and blocks on a `concurrent.futures.Future` until it
completes, propagating the function's return value or exception
(`marshalled`); in every other case it invokes the underlying function in
the current thread (`directCall`). -/
def t_slot_sync_call (self : SlotOwner) (fromEmit : Bool) (currentThread : Nat)
    (runningLoop : Option Nat) (funcRes : Except Nat Nat) : SyncSlotCall :=
  let selfThread := self.thread.getD currentThread
  match (match self.loop with
         | some l => some l
         | none => runningLoop) with
  | none => SyncSlotCall.noLoopError
  | some l =>
    if fromEmit = false ∧ currentThread ≠ selfThread then
      SyncSlotCall.marshalled l funcRes
    else
      SyncSlotCall.directCall funcRes

/-- C2: a synchronous member slot called directly (not via `emit`, so the
emission-context flag is unset) from a thread different from the owner's
thread posts a closure to the owner's loop and blocks the caller on a
one-shot future until it completes, returning the slot's return value or
re-raising its exception in the caller; and whenever the emission-context
flag is set, the underlying function runs in the current thread without any
marshalling. -/
theorem t_slot_sync_marshals_from_foreign_thread (self : SlotOwner)
    (currentThread t l : Nat) (runningLoop : Option Nat)
    (funcRes : Except Nat Nat)
    (hthread : self.thread = some t) (hloop : self.loop = some l) :
    (currentThread ≠ t →
      t_slot_sync_call self false currentThread runningLoop funcRes =
        SyncSlotCall.marshalled l funcRes) ∧
    t_slot_sync_call self true currentThread runningLoop funcRes =
      SyncSlotCall.directCall funcRes := by
  unfold t_slot_sync_call
  rw [hthread, hloop]
  constructor
  · intro hne
    simp [hne]
  · simp

/-- C2 witness. -/
theorem t_slot_sync_marshals_from_foreign_thread_witness :
    (t_slot_sync_call ⟨some 1, some 2⟩ false 3 none (Except.ok 7) =
      SyncSlotCall.marshalled 2 (Except.ok 7)) ∧
    (t_slot_sync_call ⟨some 1, some 2⟩ true 3 none (Except.error 8) =
      SyncSlotCall.directCall (Except.error 8)) := by
  have h1 := t_slot_sync_marshals_from_foreign_thread ⟨some 1, some 2⟩ 3 1 2 none
    (Except.ok 7) rfl rfl
  have h2 := t_slot_sync_marshals_from_foreign_thread ⟨some 1, some 2⟩ 3 1 2 none
    (Except.error 8) rfl rfl
  exact ⟨h1.1 (by decide), h2.2⟩

/-- An object constructed by a `t_with_signals`-decorated class: the
attributes its injected `__init__` (core.py lines 441-460) sets. -/
structure SignalObject where
  id : Nat
  thread : Nat
  loop : Nat
  affinity : AffinityToken
deriving DecidableEq, Repr

/-- The injected `__init__` of `t_with_signals` (core.py lines 441-460):
uses the decorator's `loop` argument or the currently running loop (raising
a no-loop `RuntimeError` when neither exists), then sets
`_tsignal_thread` to the current thread, `_tsignal_affinity` to that same
thread object, and `_tsignal_loop` to the chosen loop. -/
def t_with_signals_init (objId currentThread : Nat)
    (runningLoop decoratorLoop : Option Nat) : Except PyExc SignalObject :=
  match (match decoratorLoop with
         | some l => some l
         | none => runningLoop) with
  | none => Except.error (PyExc.runtimeError "No running event loop found.")
  | some l =>
    Except.ok
      { id := objId, thread := currentThread, loop := l,
        affinity := AffinityToken.threadTok currentThread }

/-- Worker object state: the attributes `t_with_worker.__init__` sets
(decorators.py lines 43-60) plus the task queue created by `start`.  `queue`
is `none` until `thread_main` creates it; queued coroutines are ids. -/
structure WorkerObject where
  id : Nat
  loop : Option Nat
  thread : Option Nat
  affinity : AffinityToken
  stopping : Bool
  queue : Option (List Nat)
deriving DecidableEq, Repr

/-- `t_with_worker.__init__` (decorators.py lines 43-60): loop and thread
start as `None`, the affinity token is a fresh `object()` (modelled by
`objTok freshTok`), the stopping event is clear, the queue attributes are
unset. -/
def worker_init (objId freshTok : Nat) : WorkerObject :=
  { id := objId, loop := none, thread := none,
    affinity := AffinityToken.objTok freshTok, stopping := false, queue := none }

/-- `WorkerClass.move_to_thread` (decorators.py lines 234-267): raises a
`RuntimeError` when the worker's thread or loop is unset; otherwise copies
the worker's thread, loop and affinity token onto the target. -/
def move_to_thread (w : WorkerObject) (target : SignalObject) :
    Except PyExc SignalObject :=
  match w.thread, w.loop with
  | some wt, some wl =>
    Except.ok { target with thread := wt, loop := wl, affinity := w.affinity }
  | _, _ =>
    Except.error (PyExc.runtimeError "Worker thread not started.")

/-- C7 counterexample: two distinct objects constructed by `t_with_signals`
classes on the same thread receive the *same* affinity token — the creating
thread object — so a fresh object's token is not a value unique to that
object. -/
theorem fresh_affinity_tokens_not_unique_per_object :
    t_with_signals_init 0 7 (some 1) none =
      Except.ok ⟨0, 7, 1, AffinityToken.threadTok 7⟩ ∧
    t_with_signals_init 1 7 (some 1) none =
      Except.ok ⟨1, 7, 1, AffinityToken.threadTok 7⟩ := by
  constructor <;> rfl

/-- C7 amended: a fresh `t_with_signals` object's affinity token is the
identity of its creating thread (so all objects created on one thread share
it); a fresh worker's token is a fresh unique value distinct from every
thread token; and `move_to_thread(target)` overwrites the target's token
(with its thread and loop) with the worker's, so that afterwards the worker
and the target compare equal on tokens. -/
theorem affinity_token_provenance :
    (∀ objId ct rl dl o, t_with_signals_init objId ct rl dl = Except.ok o →
      o.affinity = AffinityToken.threadTok ct) ∧
    (∀ objId tok, (worker_init objId tok).affinity = AffinityToken.objTok tok ∧
      ∀ t, AffinityToken.objTok tok ≠ AffinityToken.threadTok t) ∧
    (∀ w target t2, move_to_thread w target = Except.ok t2 →
      t2.affinity = w.affinity) := by
  refine ⟨?_, ?_, ?_⟩
  · intro objId ct rl dl o h
    unfold t_with_signals_init at h
    cases hdl : (match dl with
                 | some l => some l
                 | none => rl) with
    | none => rw [hdl] at h; exact absurd h (by simp)
    | some l =>
      rw [hdl] at h
      cases h
      rfl
  · intro objId tok
    exact ⟨rfl, fun t h => AffinityToken.noConfusion h⟩
  · intro w target t2 h
    unfold move_to_thread at h
    cases hwt : w.thread with
    | none => rw [hwt] at h; exact absurd h (by simp)
    | some wt =>
      cases hwl : w.loop with
      | none => rw [hwt, hwl] at h; exact absurd h (by simp)
      | some wl =>
        rw [hwt, hwl] at h
        cases h
        rfl

/-- C7 amended witness: a concrete object constructed on thread 7 carries
that thread's token; a started worker moves a target onto its thread and the
two then compare equal on affinity tokens. -/
theorem affinity_token_provenance_witness :
    SignalObject.affinity ⟨0, 7, 1, AffinityToken.threadTok 7⟩ = AffinityToken.threadTok 7 ∧
    (worker_init 2 5).affinity = AffinityToken.objTok 5 ∧
    SignalObject.affinity ⟨0, 11, 10, AffinityToken.objTok 5⟩ =
      WorkerObject.affinity ⟨2, some 10, some 11, AffinityToken.objTok 5, false, some []⟩ := by
  refine ⟨affinity_token_provenance.1 0 7 (some 1) none ⟨0, 7, 1, AffinityToken.threadTok 7⟩ rfl,
    (affinity_token_provenance.2.1 2 5).1,
    affinity_token_provenance.2.2 ⟨2, some 10, some 11, AffinityToken.objTok 5, false, some []⟩
      ⟨0, 7, 1, AffinityToken.threadTok 7⟩ ⟨0, 11, 10, AffinityToken.objTok 5⟩ rfl⟩

/-- `WorkerClass.start` (decorators.py lines 139-211) together with the
startup part of `thread_main`: if an explicit `run_coro` keyword argument is
given and is not a coroutine object, an error is logged and `start` returns
without doing anything (`runCoroOk = false`); otherwise a new thread is
created unconditionally — the source performs no lifecycle-state check — and
in that thread a fresh task queue and a fresh loop are created and
published.  `freshThread` and `freshLoop` are the newly created thread and
loop. -/
def worker_start (w : WorkerObject) (runCoroOk : Bool)
    (freshThread freshLoop : Nat) : Except PyExc WorkerObject :=
  if runCoroOk = false then
    Except.ok w
  else
    Except.ok
      { w with thread := some freshThread, loop := some freshLoop, queue := some [] }

/-- C8 counterexample: calling `start` a second time without an intervening
`stop` does not fail with an already-started error; it creates a second
thread and loop, overwriting the worker's thread and loop fields. -/
theorem double_start_creates_second_thread :
    (worker_start (worker_init 0 5) true 1 10).bind
        (fun w1 => worker_start w1 true 2 20) =
      Except.ok
        { id := 0, loop := some 20, thread := some 2,
          affinity := AffinityToken.objTok 5, stopping := false, queue := some [] } ∧
    (worker_start (worker_init 0 5) true 1 10 =
      Except.ok
        { id := 0, loop := some 10, thread := some 1,
          affinity := AffinityToken.objTok 5, stopping := false, queue := some [] }) := by
  constructor <;> rfl

/-- C8 amended: `start` performs no lifecycle-state check and never raises:
with a valid (or absent) `run_coro` argument it always creates a fresh
thread and loop and overwrites the worker's thread and loop fields,
whatever state the worker was in; with an invalid `run_coro` it logs and
returns leaving the worker unchanged. -/
theorem start_never_raises (w : WorkerObject) (runCoroOk : Bool)
    (freshThread freshLoop : Nat) :
    (∃ w2, worker_start w runCoroOk freshThread freshLoop = Except.ok w2) ∧
    worker_start w true freshThread freshLoop =
      Except.ok { w with thread := some freshThread, loop := some freshLoop, queue := some [] } ∧
    worker_start w false freshThread freshLoop = Except.ok w := by
  refine ⟨?_, rfl, rfl⟩
  cases runCoroOk
  · exact ⟨w, rfl⟩
  · exact ⟨_, rfl⟩

/-- Outcome of awaiting a task from the worker runner: it completed, was
cancelled (`asyncio.CancelledError`), or raised another exception. -/
inductive AwaitOutcome
  | completed
  | cancelled
  | raised
deriving DecidableEq, Repr

/-- Events of one worker run observable through its lifecycle signals and
task handling. -/
inductive WorkerEvent
  | startedEmit
  | runTaskScheduled
  | runTaskCancelRequested
  | queueTaskCancelRequested
  | stoppedEmit
deriving DecidableEq, Repr

/-- The body of `runner` between `await self._tsignal_stopping.wait()` and
the `finally` block (decorators.py lines 167-189), for a run in which `stop`
was called (so the stopping event completes): the run task is cancelled and
awaited — `CancelledError` is passed, any other exception propagates — and
then, if the queue-processor task is active, it is cancelled and awaited,
its `CancelledError` logged.  Returns the events and whether an exception
escapes the `try` body. -/
def runner_body (runOutcome : AwaitOutcome) (queueActive : Bool)
    (queueOutcome : AwaitOutcome) : List WorkerEvent × Bool :=
  match runOutcome with
  | AwaitOutcome.raised => ([WorkerEvent.runTaskCancelRequested], true)
  | _ =>
    if queueActive then
      match queueOutcome with
      | AwaitOutcome.raised =>
        ([WorkerEvent.runTaskCancelRequested, WorkerEvent.queueTaskCancelRequested], true)
      | _ =>
        ([WorkerEvent.runTaskCancelRequested, WorkerEvent.queueTaskCancelRequested], false)
    else
      ([WorkerEvent.runTaskCancelRequested], false)

/-- The `runner` coroutine of `WorkerClass.start` (decorators.py lines
158-194) for a start-followed-by-stop run: it emits `started`, schedules the
run task, executes the body, and — in the `finally` block, so on every path
— emits `stopped`. -/
def runner_trace (runOutcome : AwaitOutcome) (queueActive : Bool)
    (queueOutcome : AwaitOutcome) : List WorkerEvent :=
  [WorkerEvent.startedEmit, WorkerEvent.runTaskScheduled] ++
    (runner_body runOutcome queueActive queueOutcome).1 ++
    [WorkerEvent.stoppedEmit]

/-- C9: in every run of the worker consisting of `start` followed by `stop`,
whatever the run task and queue processor do, the `started` signal is
emitted exactly once, the `stopped` signal is emitted exactly once, and the
`started` emission comes before the `stopped` emission. -/
theorem started_once_before_stopped_once (runOutcome : AwaitOutcome)
    (queueActive : Bool) (queueOutcome : AwaitOutcome) :
    (runner_trace runOutcome queueActive queueOutcome).count
        WorkerEvent.startedEmit = 1 ∧
    (runner_trace runOutcome queueActive queueOutcome).count
        WorkerEvent.stoppedEmit = 1 ∧
    (runner_trace runOutcome queueActive queueOutcome).indexOf
        WorkerEvent.startedEmit <
      (runner_trace runOutcome queueActive queueOutcome).indexOf
        WorkerEvent.stoppedEmit := by
  cases runOutcome <;> cases queueActive <;> cases queueOutcome <;>
    refine ⟨by decide, by decide, by decide⟩

/-- `WorkerClass.queue_task` (decorators.py lines 125-137): a non-coroutine
argument is logged as an error and the call returns with nothing enqueued;
otherwise `self._tsignal_loop` is read under the lifecycle lock and
`loop.call_soon_threadsafe` is invoked on it — when the worker is not
running the loop field is `None` and the attribute access raises an
`AttributeError`; when it is running, the posted closure appends the
coroutine to the task queue. -/
def queue_task (w : WorkerObject) (isCoroutine : Bool) (taskId : Nat) :
    Except PyExc WorkerObject :=
  if isCoroutine = false then
    Except.ok w
  else
    match w.loop with
    | none =>
      Except.error (PyExc.attributeError
        "NoneType object has no attribute call_soon_threadsafe")
    | some _ =>
      Except.ok { w with queue := some ((w.queue.getD []) ++ [taskId]) }

/-- C10: `queue_task` with a non-coroutine argument logs an error and
returns normally with nothing enqueued, whatever the worker's state; with a
coroutine argument while the worker's loop field is unset it raises an
`AttributeError` from the attribute access on the absent loop rather than a
dedicated worker-not-started error. -/
theorem queue_task_error_behaviour (w : WorkerObject) (taskId : Nat) :
    queue_task w false taskId = Except.ok w ∧
    (w.loop = none →
      queue_task w true taskId =
        Except.error (PyExc.attributeError
          "NoneType object has no attribute call_soon_threadsafe")) := by
  refine ⟨rfl, fun h => ?_⟩
  unfold queue_task
  rw [h]
  rfl

/-- C10 witness: a freshly constructed (never started) worker. -/
theorem queue_task_error_behaviour_witness :
    queue_task (worker_init 0 5) false 42 = Except.ok (worker_init 0 5) ∧
    queue_task (worker_init 0 5) true 42 =
      Except.error (PyExc.attributeError
        "NoneType object has no attribute call_soon_threadsafe") :=
  ⟨(queue_task_error_behaviour (worker_init 0 5) 42).1,
    (queue_task_error_behaviour (worker_init 0 5) 42).2 rfl⟩

end TSignal
